import Mathlib

/-!
Verification of the data-generation and filtering core of the Manzi Water
executive dashboard (`manzi_dashboard.py`).

Dates are modelled as natural numbers counting days since 1970-01-01 (the
day-granularity content of a pandas `Timestamp`); the civil-calendar
conversions below recover `year`, `month` and `tm_yday` of the proleptic
Gregorian calendar.  The `np.random` draws of the source are modelled by
explicit streams of values handed to the generators, so each theorem
quantifies over the randomness exactly where the claim does: a Gaussian
draw is an arbitrary real, a `uniform(lo, hi)` draw is `lo + u * (hi - lo)`
for `u ∈ [0,1)`, `randint(lo, hi)` is `lo + r % (hi - lo)`, and
`choice(items, p)` selects by cumulative probability.
-/

/-- Civil (proleptic Gregorian) date `(year, month, day)` of day number `z`,
counting days since 1970-01-01 (Hinnant's `civil_from_days` algorithm,
specialised to nonnegative day numbers). -/
def civilFromDays (z : ℕ) : ℕ × ℕ × ℕ :=
  let w := z + 719468
  let era := w / 146097
  let doe := w % 146097
  let yoe := (doe - doe / 1460 + doe / 36524 - doe / 146096) / 365
  let y := yoe + era * 400
  let doy := doe - (365 * yoe + yoe / 4 - yoe / 100)
  let mp := (5 * doy + 2) / 153
  let dd := doy - (153 * mp + 2) / 5 + 1
  let m := if mp < 10 then mp + 3 else mp - 9
  (if m ≤ 2 then y + 1 else y, m, dd)

/-- Calendar year of a day number (`date.year` in the source). -/
def yearOf (z : ℕ) : ℕ := (civilFromDays z).1

/-- Calendar month of a day number (`date.month` in the source). -/
def monthOf (z : ℕ) : ℕ := (civilFromDays z).2.1

/-- Day number (days since 1970-01-01) of a civil date
(Hinnant's `days_from_civil`, for dates from 1970 on). -/
def daysFromCivil (y m d : ℕ) : ℕ :=
  let y' := if m ≤ 2 then y - 1 else y
  let era := y' / 400
  let yoe := y' - era * 400
  let doy := (153 * (if 2 < m then m - 3 else m + 9) + 2) / 5 + d - 1
  let doe := yoe * 365 + yoe / 4 - yoe / 100 + doy
  era * 146097 + doe - 719468

/-- One-based day of year (`date.timetuple().tm_yday` in the source). -/
def dayOfYear (z : ℕ) : ℕ := z + 1 - daysFromCivil (yearOf z) 1 1

/-- Model of `pd.date_range(start, end, freq='D')`: every day from `s`
to `e` inclusive, empty when `e < s`. -/
def dateRange (s e : ℕ) : List ℕ := List.range' s (e + 1 - s)

/-- Day number of 2022-01-01, the fixed start of the source's range. -/
def startDay : ℕ := 18993

/-- Day number of 2024-12-31, the fixed end of the source's range. -/
def endDay : ℕ := 20088

/-- One row of the KPI table built in `generate_sample_data`
(lines 115-124 of the source). -/
structure KPIRecord where
  date : ℕ
  reservoir_level : ℝ
  leakage_rate : ℝ
  pump_uptime : ℝ
  billing_efficiency : ℝ
  energy_cost : ℝ
  compliance : ℝ
  csat : ℝ

/-- The seven independent `np.random.normal` streams consumed by
`generate_sample_data`, one draw per metric per day. -/
structure Noise where
  reservoir : ℕ → ℝ
  leakage : ℕ → ℝ
  pump : ℕ → ℝ
  billing : ℕ → ℝ
  energy : ℕ → ℝ
  compliance : ℕ → ℝ
  csat : ℕ → ℝ

/-- The load-shedding condition guarding line 88 of the source:
`year == 2024 and date.month in [4, 5, 6]`. -/
def shockReservoir (d : ℕ) : Prop := yearOf d = 2024 ∧ monthOf d ∈ ([4, 5, 6] : List ℕ)

/-- The load-shedding condition at line 96 of the source (textually the
same test, written separately where the source repeats it). -/
def shockPump (d : ℕ) : Prop := yearOf d = 2024 ∧ monthOf d ∈ ([4, 5, 6] : List ℕ)

/-- The load-shedding condition at line 104 of the source. -/
def shockEnergy (d : ℕ) : Prop := yearOf d = 2024 ∧ monthOf d ∈ ([4, 5, 6] : List ℕ)

/-- The load-shedding condition at line 112 of the source. -/
def shockCsat (d : ℕ) : Prop := yearOf d = 2024 ∧ monthOf d ∈ ([4, 5, 6] : List ℕ)

instance shockReservoirDec (d : ℕ) : Decidable (shockReservoir d) := by
  unfold shockReservoir; infer_instance

instance shockPumpDec (d : ℕ) : Decidable (shockPump d) := by
  unfold shockPump; infer_instance

instance shockEnergyDec (d : ℕ) : Decidable (shockEnergy d) := by
  unfold shockEnergy; infer_instance

instance shockCsatDec (d : ℕ) : Decidable (shockCsat d) := by
  unfold shockCsat; infer_instance

noncomputable section

/-- Line 86: `reservoir_base = 75 + 20 * np.sin(2 * np.pi * day_of_year / 365)`,
before the shock adjustment. -/
def reservoir_base_raw (d : ℕ) : ℝ :=
  75 + 20 * Real.sin (2 * Real.pi * (dayOfYear d : ℝ) / 365)

/-- Lines 86-88: the reservoir base after the conditional `-= 15` shock. -/
def reservoir_base (d : ℕ) : ℝ :=
  reservoir_base_raw d - (if shockReservoir d then 15 else 0)

/-- Line 89: `reservoir_level = max(20, reservoir_base + normal(0, 5))`. -/
def reservoir_level (n : Noise) (d : ℕ) : ℝ := max 20 (reservoir_base d + n.reservoir d)

/-- Line 92: `leakage_base = 25 - (year - 2022) * 2`. -/
def leakage_base (d : ℕ) : ℝ := 25 - ((yearOf d : ℝ) - 2022) * 2

/-- Line 93: `leakage_rate = max(10, leakage_base + normal(0, 2))`. -/
def leakage_rate (n : Noise) (d : ℕ) : ℝ := max 10 (leakage_base d + n.leakage d)

/-- The pump base before the shock term: the constant 95 of line 96. -/
def pump_base_raw (_ : ℕ) : ℝ := 95

/-- Line 96: `pump_base = 95 - (5 if shock else 0)`. -/
def pump_base (d : ℕ) : ℝ := 95 - (if shockPump d then 5 else 0)

/-- Line 97: `pump_uptime = min(100, max(80, pump_base + normal(0, 3)))`. -/
def pump_uptime (n : Noise) (d : ℕ) : ℝ := min 100 (max 80 (pump_base d + n.pump d))

/-- Line 100: `billing_efficiency = min(100, max(70, 85 + normal(0, 5)))`. -/
def billing_efficiency (n : Noise) (d : ℕ) : ℝ := min 100 (max 70 (85 + n.billing d))

/-- Line 103: `energy_base = 2.5 + (year - 2022) * 0.3`, before the shock. -/
def energy_base_raw (d : ℕ) : ℝ := 2.5 + ((yearOf d : ℝ) - 2022) * 0.3

/-- Lines 103-105: the energy base after the conditional `*= 1.4` shock. -/
def energy_base (d : ℕ) : ℝ :=
  if shockEnergy d then energy_base_raw d * 1.4 else energy_base_raw d

/-- Line 106: `energy_cost = max(1, energy_base + normal(0, 0.2))`. -/
def energy_cost (n : Noise) (d : ℕ) : ℝ := max 1 (energy_base d + n.energy d)

/-- Line 109: `compliance = min(100, max(85, 96 + normal(0, 2)))`. -/
def compliance (n : Noise) (d : ℕ) : ℝ := min 100 (max 85 (96 + n.compliance d))

/-- The satisfaction base before the shock term: the constant 78 of line 112. -/
def csat_base_raw (_ : ℕ) : ℝ := 78

/-- Line 112: `csat_base = 78 - (3 if shock else 0)`. -/
def csat_base (d : ℕ) : ℝ := 78 - (if shockCsat d then 3 else 0)

/-- Line 113: `csat = min(100, max(60, csat_base + normal(0, 4)))`. -/
def csat (n : Noise) (d : ℕ) : ℝ := min 100 (max 60 (csat_base d + n.csat d))

/-- The KPI row appended for one day (lines 115-124 of the source). -/
def mkKpiRow (n : Noise) (d : ℕ) : KPIRecord :=
  { date := d
    reservoir_level := reservoir_level n d
    leakage_rate := leakage_rate n d
    pump_uptime := pump_uptime n d
    billing_efficiency := billing_efficiency n d
    energy_cost := energy_cost n d
    compliance := compliance n d
    csat := csat n d }

/-- The body of `generate_sample_data` over an arbitrary date range: one KPI
row per day of `pd.date_range(s, e)` (lines 76-126 of the source, with the
range and the randomness as explicit inputs). -/
def generate_kpis (s e : ℕ) (n : Noise) : List KPIRecord :=
  (dateRange s e).map (mkKpiRow n)

/-- `generate_sample_data` as in the source: the fixed range
2022-01-01 .. 2024-12-31. -/
def generate_sample_data (n : Noise) : List KPIRecord :=
  generate_kpis startDay endDay n

/-- The boolean date mask of line 195:
`(df['date'] >= lo) & (df['date'] <= hi)`. -/
def kpiDateMask (lo hi : ℕ) (r : KPIRecord) : Bool :=
  decide (lo ≤ r.date) && decide (r.date ≤ hi)

/-- Line 196: `df_filtered = df_kpis[mask]`. -/
def df_filtered (lo hi : ℕ) (df : List KPIRecord) : List KPIRecord :=
  df.filter (kpiDateMask lo hi)

/-- Line 201: the row backing the KPI cards,
`df_filtered.tail(1).iloc[0] if not df_filtered.empty else df_kpis.tail(1).iloc[0]`,
with the out-of-rows `iloc` failure modelled as `none`. -/
def current_metrics (filtered full : List KPIRecord) : Option KPIRecord :=
  if filtered.isEmpty then full.getLast? else filtered.getLast?

end

/-- One anchor city of the hard-coded `locations` list (lines 132-143). -/
structure Location where
  city : String
  lat : ℚ
  lon : ℚ
  deriving DecidableEq

/-- The ten anchor cities of `generate_geo_data` (lines 132-143). -/
def locations : List Location :=
  [⟨"Johannesburg", -26.2041, 28.0473⟩,
   ⟨"Cape Town", -33.9249, 18.4241⟩,
   ⟨"Durban", -29.8587, 31.0218⟩,
   ⟨"Pretoria", -25.7479, 28.2293⟩,
   ⟨"Port Elizabeth", -33.9608, 25.6022⟩,
   ⟨"Bloemfontein", -29.0852, 26.1596⟩,
   ⟨"East London", -33.0153, 27.9116⟩,
   ⟨"Polokwane", -23.9045, 29.4689⟩,
   ⟨"Nelspruit", -25.4653, 30.9700⟩,
   ⟨"Kimberley", -28.7282, 24.7499⟩]

/-- One incident row of the geo table (lines 158-165); the timestamp is a
day count, `now` minus a whole number of days. -/
structure GeoRecord where
  lat : ℚ
  lon : ℚ
  city : String
  type : String
  severity : String
  timestamp : ℤ
  deriving DecidableEq

/-- The raw random draws consumed for one incident: the `[0,1)` variates
behind the two `np.random.choice` calls and the two `np.random.uniform`
offsets, and the raw integer behind `np.random.randint(0, 30)`. -/
structure IncidentDraw where
  typeU : ℚ
  sevU : ℚ
  latU : ℚ
  lonU : ℚ
  ago : ℕ

/-- The randomness consumed by `generate_geo_data`: the raw integer behind
`np.random.randint(5, 15)` per anchor, and one `IncidentDraw` per anchor
per incident. -/
structure GeoRand where
  count : ℕ → ℕ
  draw : ℕ → ℕ → IncidentDraw

/-- `np.random.uniform(lo, hi)` applied to a `[0,1)` variate `u`. -/
def uniformQ (lo hi u : ℚ) : ℚ := lo + u * (hi - lo)

/-- `np.random.choice(items, p)` applied to a `[0,1)` variate: walk the
cumulative probabilities, falling through to the last item. -/
def choiceP (u : ℚ) : List (String × ℚ) → String
  | [] => ""
  | [(s, _)] => s
  | (s, p) :: rest => if u < p then s else choiceP (u - p) rest

/-- The incident-type distribution of lines 149-150. -/
def typeProbs : List (String × ℚ) :=
  [("pipe_burst", 2/5), ("pump_outage", 3/10), ("refill_station", 3/10)]

/-- The severity distribution of line 156. -/
def sevProbs : List (String × ℚ) :=
  [("High", 1/5), ("Medium", 1/2), ("Low", 3/10)]

/-- One incident generated around an anchor (lines 149-165):
type and severity by weighted choice, coordinates jittered by
`uniform(-0.1, 0.1)`, timestamp `now - randint(0, 30)` days. -/
def mkIncident (loc : Location) (dr : IncidentDraw) (now : ℤ) : GeoRecord :=
  { lat := loc.lat + uniformQ (-(1/10)) (1/10) dr.latU
    lon := loc.lon + uniformQ (-(1/10)) (1/10) dr.lonU
    city := loc.city
    type := choiceP dr.typeU typeProbs
    severity := choiceP dr.sevU sevProbs
    timestamp := now - (dr.ago % 30 : ℕ) }

/-- The nested loop of lines 146-165, carrying the anchor index used to
address the random streams: `randint(5, 15)` incidents per anchor. -/
def genLoop (locs : List Location) (i : ℕ) (r : GeoRand) (now : ℤ) : List GeoRecord :=
  match locs with
  | [] => []
  | loc :: rest =>
      ((List.range (5 + r.count i % 10)).map (fun j => mkIncident loc (r.draw i j) now))
        ++ genLoop rest (i + 1) r now

/-- The body of `generate_geo_data` over an arbitrary anchor list. -/
def generateGeoFrom (locs : List Location) (r : GeoRand) (now : ℤ) : List GeoRecord :=
  genLoop locs 0 r now

/-- `generate_geo_data` as in the source: the fixed anchor list. -/
def generate_geo_data (r : GeoRand) (now : ℤ) : List GeoRecord :=
  generateGeoFrom locations r now

/-- Lines 369-370: keep rows matching the chosen incident type, with `"All"`
as the pass-through sentinel. -/
def typeStep (tf : String) (df : List GeoRecord) : List GeoRecord :=
  if tf = "All" then df else df.filter (fun r => r.type == tf)

/-- Lines 372-373: keep rows matching the chosen severity, with `"All"`
as the pass-through sentinel. -/
def severityStep (sf : String) (df : List GeoRecord) : List GeoRecord :=
  if sf = "All" then df else df.filter (fun r => r.severity == sf)

/-- Lines 376-377: `cutoff = now - timedelta(days=n)`; keep rows with
`timestamp >= cutoff`. -/
def recencyStep (now : ℤ) (n : ℕ) (df : List GeoRecord) : List GeoRecord :=
  df.filter (fun r => decide (now - (n : ℤ) ≤ r.timestamp))

/-- The conjunction of the three geo filter predicates, for stating that the
pipeline is a single AND-filter. -/
def geoPred (tf sf : String) (now : ℤ) (n : ℕ) (r : GeoRecord) : Bool :=
  (tf == "All" || r.type == tf) && ((sf == "All" || r.severity == sf)
    && decide (now - (n : ℤ) ≤ r.timestamp))

/-- The color legend of lines 380-384. -/
def color_map : List (String × String) :=
  [("pipe_burst", "#dc2626"), ("pump_outage", "#d97706"), ("refill_station", "#059669")]

/-- The marker-size legend of lines 386-390. -/
def size_map : List (String × ℕ) :=
  [("High", 15), ("Medium", 10), ("Low", 7)]

/-- A geo row after the column assignments of lines 392-393; a missing key
maps to `none` (pandas `NaN`). -/
structure AnnGeoRecord extends GeoRecord where
  color : Option String
  size : Option ℕ

/-- Lines 392-393: add the `color` and `size` columns to the filtered view. -/
def annotate (df : List GeoRecord) : List AnnGeoRecord :=
  df.map (fun r =>
    { toGeoRecord := r
      color := (color_map.lookup r.type)
      size := (size_map.lookup r.severity) })

/-- The two generated source tables (lines 170-171). -/
structure Tables where
  kpis : List KPIRecord
  geo : List GeoRecord

/-- The derived views the presentation layer consumes. -/
structure Views where
  kpiView : List KPIRecord
  geoView : List AnnGeoRecord

/-- The whole filter pipeline of the script (lines 194-196 and 367-393): the
KPI date filter, then `df_geo.copy()` followed by the three geo filter steps
and the color/size annotation, returning the source tables alongside the
views. -/
def runFilters (lo hi : ℕ) (tf sf : String) (nDays : ℕ) (now : ℤ)
    (src : Tables) : Tables × Views :=
  let kpiV := df_filtered lo hi src.kpis
  let g0 := src.geo
  let g1 := typeStep tf g0
  let g2 := severityStep sf g1
  let g3 := recencyStep now nDays g2
  (src, ⟨kpiV, annotate g3⟩)

/-! ## Helper definitions for concrete instantiations -/

/-- The all-zero Gaussian streams, for concrete instantiations. -/
noncomputable def zeroNoise : Noise :=
  ⟨fun _ => 0, fun _ => 0, fun _ => 0, fun _ => 0, fun _ => 0, fun _ => 0, fun _ => 0⟩

/-- Gaussian streams with one large (10-sigma) reservoir draw; the normal
distribution puts positive probability on every such draw. -/
noncomputable def spikeNoise : Noise :=
  ⟨fun _ => 50, fun _ => 0, fun _ => 0, fun _ => 0, fun _ => 0, fun _ => 0, fun _ => 0⟩

/-- Geo randomness with every raw draw zero, for concrete instantiations. -/
def zeroGeoRand : GeoRand := ⟨fun _ => 0, fun _ _ => ⟨0, 0, 0, 0, 0⟩⟩

/-- The first anchor of `locations`, reused by concrete instantiations. -/
def jhbLoc : Location := ⟨"Johannesburg", -26.2041, 28.0473⟩

/-! ## Helper lemmas -/

theorem chain'_succ_range' (n : ℕ) : ∀ s : ℕ,
    List.Chain' (fun a b => b = a + 1) (List.range' s n) := by
  induction n with
  | zero => intro s; simp
  | succ m ih =>
    intro s
    rw [List.range'_succ]
    cases m with
    | zero => simp
    | succ k =>
      rw [List.range'_succ]
      exact List.chain'_cons.mpr ⟨rfl, by rw [← List.range'_succ]; exact ih (s + 1)⟩

/-- Claim C2: for every valid range with `start <= end`, the generator yields
exactly `(end - start) + 1` records, one per day, with dates equal to the
gapless day range, strictly increasing, consecutive days differing by one,
and without duplicates. -/
theorem C2_generator_shape (s e : ℕ) (n : Noise) (h : s ≤ e) :
    (generate_kpis s e n).length = e - s + 1 ∧
    (generate_kpis s e n).map KPIRecord.date = dateRange s e ∧
    List.Chain' (fun a b => b = a + 1) ((generate_kpis s e n).map KPIRecord.date) ∧
    ((generate_kpis s e n).map KPIRecord.date).Pairwise (· < ·) ∧
    ((generate_kpis s e n).map KPIRecord.date).Nodup := by
  have hmap : (generate_kpis s e n).map KPIRecord.date = dateRange s e := by
    unfold generate_kpis
    rw [List.map_map]
    have : (KPIRecord.date ∘ mkKpiRow n) = id := by
      funext d; simp [mkKpiRow]
    rw [this, List.map_id]
  refine ⟨?_, hmap, ?_, ?_, ?_⟩
  · have := congrArg List.length hmap
    rw [List.length_map] at this
    rw [this]
    unfold dateRange
    rw [List.length_range']
    omega
  · rw [hmap]; exact chain'_succ_range' _ s
  · rw [hmap]; exact List.pairwise_lt_range' s _
  · rw [hmap]; exact List.nodup_range' s _

theorem C2_witness : 19723 ≤ 19725 ∧
    ((generate_kpis 19723 19725 zeroNoise).length = 19725 - 19723 + 1 ∧
     (generate_kpis 19723 19725 zeroNoise).map KPIRecord.date = dateRange 19723 19725 ∧
     List.Chain' (fun a b => b = a + 1)
       ((generate_kpis 19723 19725 zeroNoise).map KPIRecord.date) ∧
     ((generate_kpis 19723 19725 zeroNoise).map KPIRecord.date).Pairwise (· < ·) ∧
     ((generate_kpis 19723 19725 zeroNoise).map KPIRecord.date).Nodup) :=
  ⟨by omega, C2_generator_shape 19723 19725 zeroNoise (by omega)⟩

/-- Claim C4 (counterexample to the claim as stated): handed an end date that
precedes the start date, the generator does not fail: it silently returns the
empty sequence. -/
theorem C4_counterexample : generate_kpis 19000 18993 zeroNoise = [] := by
  have h : (18993 : ℕ) + 1 - 19000 = 0 := by omega
  unfold generate_kpis dateRange
  rw [h]
  rfl

/-- Claim C4 (amended): when the end date precedes the start date the
generator returns the empty sequence; no precondition violation is
signalled. -/
theorem C4_empty_on_reversed (s e : ℕ) (n : Noise) (h : e < s) :
    generate_kpis s e n = [] := by
  have h0 : e + 1 - s = 0 := by omega
  unfold generate_kpis dateRange
  rw [h0]
  rfl

theorem C4_witness : 3 < 100 ∧ generate_kpis 100 3 zeroNoise = [] :=
  ⟨by omega, C4_empty_on_reversed 100 3 zeroNoise (by omega)⟩

/-- Claim C7: the date-range filter keeps exactly the records with
`lo <= date <= hi` (both bounds inclusive), is a sublist of the source
(original ordering preserved), and returns the empty list rather than
failing when the range is empty or disjoint from the table. -/
theorem C7_date_filter (lo hi : ℕ) (df : List KPIRecord) :
    (∀ r, r ∈ df_filtered lo hi df ↔ r ∈ df ∧ (lo ≤ r.date ∧ r.date ≤ hi)) ∧
    (df_filtered lo hi df).Sublist df ∧
    (hi < lo → df_filtered lo hi df = []) ∧
    ((∀ r ∈ df, ¬ (lo ≤ r.date ∧ r.date ≤ hi)) → df_filtered lo hi df = []) := by
  refine ⟨?_, List.filter_sublist df, ?_, ?_⟩
  · intro r
    simp [df_filtered, kpiDateMask, List.mem_filter]
  · intro h
    unfold df_filtered
    rw [List.filter_eq_nil_iff]
    intro r _
    simp [kpiDateMask]
    omega
  · intro h
    unfold df_filtered
    rw [List.filter_eq_nil_iff]
    intro r hr
    have := h r hr
    simp [kpiDateMask]
    omega

theorem C7_witness :
    (mkKpiRow zeroNoise 7 ∈ df_filtered 5 10 [mkKpiRow zeroNoise 7] ↔
      mkKpiRow zeroNoise 7 ∈ [mkKpiRow zeroNoise 7] ∧
        (5 ≤ (mkKpiRow zeroNoise 7).date ∧ (mkKpiRow zeroNoise 7).date ≤ 10)) ∧
    df_filtered 10 5 [mkKpiRow zeroNoise 7] = [] :=
  ⟨(C7_date_filter 5 10 [mkKpiRow zeroNoise 7]).1 _,
   (C7_date_filter 10 5 [mkKpiRow zeroNoise 7]).2.2.1 (by omega)⟩

/-- Claim C10: when the date filter yields an empty view the KPI-card row
falls back to the last row of the full table, otherwise it is the last row
of the filtered view; whenever the full table is nonempty the card row is
present. -/
theorem C10_current_metrics (filtered full : List KPIRecord) :
    (filtered ≠ [] → current_metrics filtered full = filtered.getLast?) ∧
    (filtered = [] → current_metrics filtered full = full.getLast?) ∧
    (full ≠ [] → (current_metrics filtered full).isSome = true) := by
  refine ⟨?_, ?_, ?_⟩
  · intro h
    simp [current_metrics, h]
  · intro h
    subst h
    simp [current_metrics]
  · intro h
    rcases eq_or_ne filtered [] with hf | hf
    · subst hf
      simp [current_metrics, h]
    · simp [current_metrics, hf]

theorem C10_witness :
    (([] : List KPIRecord) = [] ∧
      current_metrics [] [mkKpiRow zeroNoise 3] = [mkKpiRow zeroNoise 3].getLast?) ∧
    ([mkKpiRow zeroNoise 3] ≠ ([] : List KPIRecord) ∧
      (current_metrics [] [mkKpiRow zeroNoise 3]).isSome = true) :=
  ⟨⟨rfl, (C10_current_metrics [] [mkKpiRow zeroNoise 3]).2.1 rfl⟩,
   ⟨by simp, (C10_current_metrics [] [mkKpiRow zeroNoise 3]).2.2 (by simp)⟩⟩

theorem typeStep_eq (tf : String) (df : List GeoRecord) :
    typeStep tf df = df.filter (fun r => tf == "All" || r.type == tf) := by
  by_cases h : tf = "All"
  · simp [typeStep, h]
  · have hb : (tf == "All") = false := by simpa using h
    simp [typeStep, h, hb]

theorem severityStep_eq (sf : String) (df : List GeoRecord) :
    severityStep sf df = df.filter (fun r => sf == "All" || r.severity == sf) := by
  by_cases h : sf = "All"
  · simp [severityStep, h]
  · have hb : (sf == "All") = false := by simpa using h
    simp [severityStep, h, hb]

/-- Claim C5: the three incident filters (type, severity, recency) applied
in any order produce the same result, namely the single filter by the AND
of their predicates; likewise the two halves of the KPI date mask commute. -/
theorem C5_filter_commute (tf sf : String) (nDays : ℕ) (now : ℤ)
    (geo : List GeoRecord) (lo hi : ℕ) (kpis : List KPIRecord) :
    recencyStep now nDays (severityStep sf (typeStep tf geo)) =
      geo.filter (geoPred tf sf now nDays) ∧
    recencyStep now nDays (typeStep tf (severityStep sf geo)) =
      geo.filter (geoPred tf sf now nDays) ∧
    severityStep sf (recencyStep now nDays (typeStep tf geo)) =
      geo.filter (geoPred tf sf now nDays) ∧
    severityStep sf (typeStep tf (recencyStep now nDays geo)) =
      geo.filter (geoPred tf sf now nDays) ∧
    typeStep tf (recencyStep now nDays (severityStep sf geo)) =
      geo.filter (geoPred tf sf now nDays) ∧
    typeStep tf (severityStep sf (recencyStep now nDays geo)) =
      geo.filter (geoPred tf sf now nDays) ∧
    df_filtered lo hi kpis =
      (kpis.filter (fun r => decide (lo ≤ r.date))).filter
        (fun r => decide (r.date ≤ hi)) ∧
    df_filtered lo hi kpis =
      (kpis.filter (fun r => decide (r.date ≤ hi))).filter
        (fun r => decide (lo ≤ r.date)) := by
  refine ⟨?_, ?_, ?_, ?_, ?_, ?_, ?_, ?_⟩
  · simp only [typeStep_eq, severityStep_eq, recencyStep, List.filter_filter]
    exact List.filter_congr fun a _ => by
      cases h1 : (tf == "All" || a.type == tf) <;>
        cases h2 : (sf == "All" || a.severity == sf) <;>
          cases h3 : decide (now - (nDays : ℤ) ≤ a.timestamp) <;>
            simp only [geoPred, h1, h2, h3, Bool.and_true, Bool.and_false,
              Bool.true_and, Bool.false_and]
  · simp only [typeStep_eq, severityStep_eq, recencyStep, List.filter_filter]
    exact List.filter_congr fun a _ => by
      cases h1 : (tf == "All" || a.type == tf) <;>
        cases h2 : (sf == "All" || a.severity == sf) <;>
          cases h3 : decide (now - (nDays : ℤ) ≤ a.timestamp) <;>
            simp only [geoPred, h1, h2, h3, Bool.and_true, Bool.and_false,
              Bool.true_and, Bool.false_and]
  · simp only [typeStep_eq, severityStep_eq, recencyStep, List.filter_filter]
    exact List.filter_congr fun a _ => by
      cases h1 : (tf == "All" || a.type == tf) <;>
        cases h2 : (sf == "All" || a.severity == sf) <;>
          cases h3 : decide (now - (nDays : ℤ) ≤ a.timestamp) <;>
            simp only [geoPred, h1, h2, h3, Bool.and_true, Bool.and_false,
              Bool.true_and, Bool.false_and]
  · simp only [typeStep_eq, severityStep_eq, recencyStep, List.filter_filter]
    exact List.filter_congr fun a _ => by
      cases h1 : (tf == "All" || a.type == tf) <;>
        cases h2 : (sf == "All" || a.severity == sf) <;>
          cases h3 : decide (now - (nDays : ℤ) ≤ a.timestamp) <;>
            simp only [geoPred, h1, h2, h3, Bool.and_true, Bool.and_false,
              Bool.true_and, Bool.false_and]
  · simp only [typeStep_eq, severityStep_eq, recencyStep, List.filter_filter]
    exact List.filter_congr fun a _ => by
      cases h1 : (tf == "All" || a.type == tf) <;>
        cases h2 : (sf == "All" || a.severity == sf) <;>
          cases h3 : decide (now - (nDays : ℤ) ≤ a.timestamp) <;>
            simp only [geoPred, h1, h2, h3, Bool.and_true, Bool.and_false,
              Bool.true_and, Bool.false_and]
  · simp only [typeStep_eq, severityStep_eq, recencyStep, List.filter_filter]
    exact List.filter_congr fun a _ => by
      cases h1 : (tf == "All" || a.type == tf) <;>
        cases h2 : (sf == "All" || a.severity == sf) <;>
          cases h3 : decide (now - (nDays : ℤ) ≤ a.timestamp) <;>
            simp only [geoPred, h1, h2, h3, Bool.and_true, Bool.and_false,
              Bool.true_and, Bool.false_and]
  · simp only [df_filtered, kpiDateMask, List.filter_filter]
    exact List.filter_congr fun a _ => by
      cases h1 : decide (lo ≤ a.date) <;> cases h2 : decide (a.date ≤ hi) <;>
        simp only [kpiDateMask, h1, h2, Bool.and_true, Bool.and_false,
          Bool.true_and, Bool.false_and]
  · simp only [df_filtered, kpiDateMask, List.filter_filter]
    exact List.filter_congr fun a _ => by
      cases h1 : decide (lo ≤ a.date) <;> cases h2 : decide (a.date ≤ hi) <;>
        simp only [kpiDateMask, h1, h2, Bool.and_true, Bool.and_false,
          Bool.true_and, Bool.false_and]

theorem typeStep_sublist (tf : String) (df : List GeoRecord) :
    (typeStep tf df).Sublist df := by
  unfold typeStep
  split
  · exact List.Sublist.refl df
  · exact List.filter_sublist df

theorem severityStep_sublist (sf : String) (df : List GeoRecord) :
    (severityStep sf df).Sublist df := by
  unfold severityStep
  split
  · exact List.Sublist.refl df
  · exact List.filter_sublist df

theorem annotate_map_back (l : List GeoRecord) :
    (annotate l).map AnnGeoRecord.toGeoRecord = l := by
  unfold annotate
  rw [List.map_map]
  have : (AnnGeoRecord.toGeoRecord ∘ fun r =>
      AnnGeoRecord.mk r (color_map.lookup r.type) (size_map.lookup r.severity)) = id := by
    funext r; rfl
  rw [this, List.map_id]

/-- Claim C9: the filter pipeline never changes the generated source tables:
it hands back the sources untouched, the KPI view is a sublist of the source
KPI table, and the annotated geo view's rows are (in order) rows of the
source geo table. -/
theorem C9_no_mutation (lo hi : ℕ) (tf sf : String) (nDays : ℕ) (now : ℤ)
    (src : Tables) :
    (runFilters lo hi tf sf nDays now src).1 = src ∧
    ((runFilters lo hi tf sf nDays now src).2.kpiView).Sublist src.kpis ∧
    (((runFilters lo hi tf sf nDays now src).2.geoView).map
      AnnGeoRecord.toGeoRecord).Sublist src.geo := by
  refine ⟨rfl, List.filter_sublist _, ?_⟩
  show ((annotate (recencyStep now nDays (severityStep sf (typeStep tf src.geo)))).map
    AnnGeoRecord.toGeoRecord).Sublist src.geo
  rw [annotate_map_back]
  exact ((List.filter_sublist _).trans (severityStep_sublist sf _)).trans
    (typeStep_sublist tf src.geo)

/-- Claim C1 (counterexample to the claim as stated): the reservoir level is
clamped from below only (`max(20, ...)` with no `min(100, ...)`), so a large
Gaussian draw pushes a generated record's `reservoir_level` above 100: the
2022-01-01 record of a run whose first reservoir draw is 50 exceeds 100. -/
theorem C1_counterexample :
    mkKpiRow spikeNoise startDay ∈ generate_sample_data spikeNoise ∧
    100 < (mkKpiRow spikeNoise startDay).reservoir_level := by
  constructor
  · unfold generate_sample_data generate_kpis
    refine List.mem_map_of_mem _ ?_
    unfold dateRange
    exact List.mem_range'.mpr ⟨0, by norm_num [startDay, endDay], by simp⟩
  · show (100 : ℝ) < reservoir_level spikeNoise startDay
    unfold reservoir_level reservoir_base reservoir_base_raw
    have hs : ¬ shockReservoir startDay := by decide
    rw [if_neg hs]
    have hsin : -1 ≤ Real.sin (2 * Real.pi * ((dayOfYear startDay : ℕ) : ℝ) / 365) :=
      Real.neg_one_le_sin _
    have hspike : spikeNoise.reservoir startDay = 50 := rfl
    rw [hspike]
    have h105 : (105 : ℝ) ≤ 75 + 20 * Real.sin (2 * Real.pi * ((dayOfYear startDay : ℕ) : ℝ) / 365) - 0 + 50 := by
      nlinarith
    calc (100 : ℝ) < 105 := by norm_num
      _ ≤ _ := le_trans h105 (le_max_right _ _)

/-- Claim C1 (amended): every generated metric respects its lower clamp
bound, and the four metrics that are clamped on both sides
(`pump_uptime`, `billing_efficiency`, `compliance`, `csat`) also respect
their upper bounds; `reservoir_level`, `leakage_rate` and `energy_cost`
are clamped from below only. -/
theorem C1_clamp_bounds (s e : ℕ) (n : Noise) (r : KPIRecord)
    (hr : r ∈ generate_kpis s e n) :
    20 ≤ r.reservoir_level ∧ 10 ≤ r.leakage_rate ∧
    80 ≤ r.pump_uptime ∧ r.pump_uptime ≤ 100 ∧
    70 ≤ r.billing_efficiency ∧ r.billing_efficiency ≤ 100 ∧
    1 ≤ r.energy_cost ∧
    85 ≤ r.compliance ∧ r.compliance ≤ 100 ∧
    60 ≤ r.csat ∧ r.csat ≤ 100 := by
  obtain ⟨d, _, rfl⟩ := List.mem_map.mp hr
  refine ⟨le_max_left _ _, le_max_left _ _, ?_, min_le_left _ _, ?_, min_le_left _ _,
    le_max_left _ _, ?_, min_le_left _ _, ?_, min_le_left _ _⟩
  · exact le_min (by norm_num) (le_max_left _ _)
  · exact le_min (by norm_num) (le_max_left _ _)
  · exact le_min (by norm_num) (le_max_left _ _)
  · exact le_min (by norm_num) (le_max_left _ _)

theorem C1_witness :
    mkKpiRow zeroNoise 5 ∈ generate_kpis 5 5 zeroNoise ∧
    (20 ≤ (mkKpiRow zeroNoise 5).reservoir_level ∧
     10 ≤ (mkKpiRow zeroNoise 5).leakage_rate ∧
     80 ≤ (mkKpiRow zeroNoise 5).pump_uptime ∧ (mkKpiRow zeroNoise 5).pump_uptime ≤ 100 ∧
     70 ≤ (mkKpiRow zeroNoise 5).billing_efficiency ∧
       (mkKpiRow zeroNoise 5).billing_efficiency ≤ 100 ∧
     1 ≤ (mkKpiRow zeroNoise 5).energy_cost ∧
     85 ≤ (mkKpiRow zeroNoise 5).compliance ∧ (mkKpiRow zeroNoise 5).compliance ≤ 100 ∧
     60 ≤ (mkKpiRow zeroNoise 5).csat ∧ (mkKpiRow zeroNoise 5).csat ≤ 100) := by
  have hm : mkKpiRow zeroNoise 5 ∈ generate_kpis 5 5 zeroNoise := by
    unfold generate_kpis
    refine List.mem_map_of_mem _ ?_
    unfold dateRange
    exact List.mem_range'.mpr ⟨0, by norm_num, by simp⟩
  exact ⟨hm, C1_clamp_bounds 5 5 zeroNoise _ hm⟩

/-- Claim C3: the shock adjustment of all four affected metrics is guarded by
the one date predicate (year 2024, month in April..June); under it the
reservoir and pump bases drop, the energy base rises and the satisfaction
base drops, all simultaneously; on every other date all four bases coincide
with their unshocked values. -/
theorem C3_shock_consistency :
    (∀ d : ℕ, (shockReservoir d ↔ shockPump d) ∧ (shockReservoir d ↔ shockEnergy d) ∧
      (shockReservoir d ↔ shockCsat d)) ∧
    (∀ d : ℕ, shockReservoir d →
      reservoir_base d < reservoir_base_raw d ∧ pump_base d < pump_base_raw d ∧
      energy_base_raw d < energy_base d ∧ csat_base d < csat_base_raw d) ∧
    (∀ d : ℕ, ¬ shockReservoir d →
      reservoir_base d = reservoir_base_raw d ∧ pump_base d = pump_base_raw d ∧
      energy_base d = energy_base_raw d ∧ csat_base d = csat_base_raw d) := by
  refine ⟨fun d => ⟨Iff.rfl, Iff.rfl, Iff.rfl⟩, fun d hd => ?_, fun d hd => ?_⟩
  · have hp : shockPump d := hd
    have he : shockEnergy d := hd
    have hc : shockCsat d := hd
    have hy : yearOf d = 2024 := hd.1
    have hraw : energy_base_raw d = 3.1 := by
      unfold energy_base_raw
      rw [hy]
      norm_num
    refine ⟨?_, ?_, ?_, ?_⟩
    · unfold reservoir_base
      rw [if_pos hd]
      linarith
    · unfold pump_base pump_base_raw
      rw [if_pos hp]
      norm_num
    · unfold energy_base
      rw [if_pos he, hraw]
      norm_num
    · unfold csat_base csat_base_raw
      rw [if_pos hc]
      norm_num
  · have hp : ¬ shockPump d := hd
    have he : ¬ shockEnergy d := hd
    have hc : ¬ shockCsat d := hd
    refine ⟨?_, ?_, ?_, ?_⟩
    · unfold reservoir_base
      rw [if_neg hd]
      ring
    · unfold pump_base pump_base_raw
      rw [if_neg hp]
      norm_num
    · unfold energy_base
      rw [if_neg he]
    · unfold csat_base csat_base_raw
      rw [if_neg hc]
      norm_num

theorem C3_witness :
    shockReservoir 19814 ∧ ¬ shockReservoir 19813 ∧
    (reservoir_base 19814 < reservoir_base_raw 19814 ∧
     pump_base 19814 < pump_base_raw 19814 ∧
     energy_base_raw 19814 < energy_base 19814 ∧
     csat_base 19814 < csat_base_raw 19814) ∧
    (reservoir_base 19813 = reservoir_base_raw 19813 ∧
     pump_base 19813 = pump_base_raw 19813 ∧
     energy_base 19813 = energy_base_raw 19813 ∧
     csat_base 19813 = csat_base_raw 19813) :=
  ⟨by decide, by decide,
   C3_shock_consistency.2.1 19814 (by decide),
   C3_shock_consistency.2.2 19813 (by decide)⟩

theorem choiceP_mem (u : ℚ) (a : String × ℚ) (l : List (String × ℚ)) :
    choiceP u (a :: l) ∈ (a :: l).map Prod.fst := by
  induction l generalizing u a with
  | nil =>
    obtain ⟨s, p⟩ := a
    simp [choiceP]
  | cons b r2 ih =>
    obtain ⟨s, p⟩ := a
    simp only [choiceP]
    split
    · simp
    · rw [List.map_cons]
      exact List.mem_cons_of_mem _ (ih (u - p) b)

theorem genLoop_mem {x : GeoRecord} :
    ∀ (locs : List Location) (i : ℕ) (r : GeoRand) (now : ℤ),
    x ∈ genLoop locs i r now →
    ∃ loc ∈ locs, ∃ k j, x = mkIncident loc (r.draw k j) now := by
  intro locs
  induction locs with
  | nil =>
    intro i r now h
    simp [genLoop] at h
  | cons loc rest ih =>
    intro i r now h
    simp only [genLoop] at h
    rcases List.mem_append.mp h with h1 | h2
    · obtain ⟨j, _, rfl⟩ := List.mem_map.mp h1
      exact ⟨loc, List.mem_cons_self _ _, i, j, rfl⟩
    · obtain ⟨loc2, hl2, k, j, rfl⟩ := ih (i + 1) r now h2
      exact ⟨loc2, List.mem_cons_of_mem _ hl2, k, j, rfl⟩

theorem uniform_abs_le (u : ℚ) (h0 : 0 ≤ u) (h1 : u < 1) :
    |uniformQ (-(1/10)) (1/10) u| ≤ 1/10 := by
  rw [abs_le]
  unfold uniformQ
  constructor <;> nlinarith

theorem locations_city_inj :
    ∀ l1 ∈ locations, ∀ l2 ∈ locations, l1.city = l2.city → l2 = l1 := by
  have hnd : (locations.map Location.city).Nodup := by decide
  intro l1 h1 l2 h2 hc
  exact (List.inj_on_of_nodup_map hnd h1 h2 hc).symm

/-- Claim C6: every generated incident has a type and a severity from the
fixed category sets, carries the name of exactly one anchor city, and sits
within 0.1 degrees of that anchor in both axes, provided the uniform jitter
variates lie in `[0,1)` as `np.random.uniform` guarantees. -/
theorem C6_incident_invariants (r : GeoRand) (now : ℤ) (rec : GeoRecord)
    (hmem : rec ∈ generate_geo_data r now)
    (hu : ∀ i j, 0 ≤ (r.draw i j).latU ∧ (r.draw i j).latU < 1 ∧
      0 ≤ (r.draw i j).lonU ∧ (r.draw i j).lonU < 1) :
    rec.type ∈ (["pipe_burst", "pump_outage", "refill_station"] : List String) ∧
    rec.severity ∈ (["High", "Medium", "Low"] : List String) ∧
    ∃ loc ∈ locations, rec.city = loc.city ∧
      |rec.lat - loc.lat| ≤ 1/10 ∧ |rec.lon - loc.lon| ≤ 1/10 ∧
      ∀ loc2 ∈ locations, rec.city = loc2.city → loc2 = loc := by
  have hmem' : rec ∈ genLoop locations 0 r now := hmem
  obtain ⟨loc, hloc, k, j, rfl⟩ := genLoop_mem locations 0 r now hmem'
  obtain ⟨hu1, hu2, hu3, hu4⟩ := hu k j
  refine ⟨?_, ?_, loc, hloc, rfl, ?_, ?_, ?_⟩
  · show choiceP (r.draw k j).typeU typeProbs ∈ _
    have h := choiceP_mem (r.draw k j).typeU ("pipe_burst", 2/5)
      [("pump_outage", 3/10), ("refill_station", 3/10)]
    simpa [typeProbs] using h
  · show choiceP (r.draw k j).sevU sevProbs ∈ _
    have h := choiceP_mem (r.draw k j).sevU ("High", 1/5)
      [("Medium", 1/2), ("Low", 3/10)]
    simpa [sevProbs] using h
  · show |loc.lat + uniformQ (-(1/10)) (1/10) (r.draw k j).latU - loc.lat| ≤ 1/10
    have he : loc.lat + uniformQ (-(1/10)) (1/10) (r.draw k j).latU - loc.lat
        = uniformQ (-(1/10)) (1/10) (r.draw k j).latU := by ring
    rw [he]
    exact uniform_abs_le _ hu1 hu2
  · show |loc.lon + uniformQ (-(1/10)) (1/10) (r.draw k j).lonU - loc.lon| ≤ 1/10
    have he : loc.lon + uniformQ (-(1/10)) (1/10) (r.draw k j).lonU - loc.lon
        = uniformQ (-(1/10)) (1/10) (r.draw k j).lonU := by ring
    rw [he]
    exact uniform_abs_le _ hu3 hu4
  · intro loc2 h2 hcity
    exact locations_city_inj loc hloc loc2 h2 hcity

theorem C6_witness :
    (mkIncident jhbLoc (zeroGeoRand.draw 0 0) 0 ∈ generate_geo_data zeroGeoRand 0) ∧
    ((mkIncident jhbLoc (zeroGeoRand.draw 0 0) 0).type
        ∈ (["pipe_burst", "pump_outage", "refill_station"] : List String) ∧
     (mkIncident jhbLoc (zeroGeoRand.draw 0 0) 0).severity
        ∈ (["High", "Medium", "Low"] : List String) ∧
     ∃ loc ∈ locations, (mkIncident jhbLoc (zeroGeoRand.draw 0 0) 0).city = loc.city ∧
       |(mkIncident jhbLoc (zeroGeoRand.draw 0 0) 0).lat - loc.lat| ≤ 1/10 ∧
       |(mkIncident jhbLoc (zeroGeoRand.draw 0 0) 0).lon - loc.lon| ≤ 1/10 ∧
       ∀ loc2 ∈ locations,
         (mkIncident jhbLoc (zeroGeoRand.draw 0 0) 0).city = loc2.city → loc2 = loc) := by
  have hmem : mkIncident jhbLoc (zeroGeoRand.draw 0 0) 0 ∈ generate_geo_data zeroGeoRand 0 := by
    show _ ∈ genLoop locations 0 zeroGeoRand 0
    unfold locations
    simp only [genLoop]
    apply List.mem_append_left
    exact List.mem_map_of_mem _ (List.mem_range.mpr (by norm_num))
  have hu : ∀ i j, 0 ≤ (zeroGeoRand.draw i j).latU ∧ (zeroGeoRand.draw i j).latU < 1 ∧
      0 ≤ (zeroGeoRand.draw i j).lonU ∧ (zeroGeoRand.draw i j).lonU < 1 := by
    intro i j
    exact ⟨le_rfl, show (0 : ℚ) < 1 by norm_num, le_rfl, show (0 : ℚ) < 1 by norm_num⟩
  exact ⟨hmem, C6_incident_invariants zeroGeoRand 0 _ hmem hu⟩

theorem genLoop_length_ge (r : GeoRand) (now : ℤ) :
    ∀ (locs : List Location) (i : ℕ), 5 * locs.length ≤ (genLoop locs i r now).length := by
  intro locs
  induction locs with
  | nil =>
    intro i
    simp [genLoop]
  | cons loc rest ih =>
    intro i
    simp only [genLoop, List.length_append, List.length_map, List.length_range,
      List.length_cons]
    have := ih (i + 1)
    omega

/-- Claim C8 (amended): the geo generator performs no validation of its
anchor list: any list is silently accepted, always yielding at least five
incidents per anchor; separately, the built-in anchor list itself is
well-formed, with pairwise-distinct city names and in-range coordinates. -/
theorem C8_no_validation :
    (locations.map Location.city).Nodup ∧
    locations.all (fun l => decide (-90 ≤ l.lat) && decide (l.lat ≤ 90) &&
      decide (-180 ≤ l.lon) && decide (l.lon ≤ 180)) = true ∧
    ∀ (locs : List Location) (r : GeoRand) (now : ℤ),
      5 * locs.length ≤ (generateGeoFrom locs r now).length :=
  ⟨by decide, by norm_num [locations], fun locs r now => genLoop_length_ge r now locs 0⟩

/-- Claim C8 (counterexample to the claim as stated): an anchor list with a
duplicated city name is not rejected — generation silently accepts it and
produces its ten incident records. -/
theorem C8_counterexample :
    ¬ (([jhbLoc, jhbLoc].map Location.city).Nodup) ∧
    (generateGeoFrom [jhbLoc, jhbLoc] zeroGeoRand 0).length = 10 := by
  constructor
  · decide
  · rfl
